import Mathlib

/-!
Verification development for the tee-subprocess repository.

The repository ships three parallel implementations of the same tee engine:
src/tee_subprocess/subprocess.py (the current module), src/tee_subprocess/__init__.py
(the package entry point), and src/subprocess_tee/__init__.py (the legacy variant).
This file embeds the pure core of each: the per-stream tee reader, sink
resolution, command preparation for exec and shell launches, result assembly,
and the sync/async dispatch decision.

Conventions of the embedding:
- Byte strings are lists of byte values (List Nat); decoded text is also
  represented by a list of code units.  Python's bytes.decode is an external
  runtime facility, so it is passed in as an explicit function parameter
  named dec wherever the source calls .decode().
- A child stream is abstracted as the finite sequence of chunks that the
  successive readline() calls of the reader loop return before at_eof()
  becomes true; the final element may be the empty chunk that readline
  returns at end-of-stream.
- Fallible code is modelled with Except; raising an exception corresponds to
  returning the error branch, so a launch guarded behind a prepared value can
  only happen when preparation returned the ok branch.
-/

/-- A writable destination handle.  Its isText field records whether the
object is a TextIOBase instance (sys.stdout, a StringIO) as opposed to a
binary writable (sys.stdout.buffer, a BytesIO); fd is an identity tag so
distinct handles of the same kind can be told apart. -/
structure Handle where
  isText : Bool
  fd : Nat
deriving DecidableEq

/-- The text standard-output destination, sys.stdout. -/
def sysStdout : Handle := ⟨true, 1⟩

/-- The binary standard-output destination, sys.stdout.buffer. -/
def sysStdoutBuffer : Handle := ⟨false, 1⟩

/-- The text standard-error destination, sys.stderr. -/
def sysStderr : Handle := ⟨true, 2⟩

/-- The binary standard-error destination, sys.stderr.buffer. -/
def sysStderrBuffer : Handle := ⟨false, 2⟩

/-- A caller-supplied stdout or stderr argument: absent (None), an integer
sentinel (subprocess.PIPE, subprocess.STDOUT, subprocess.DEVNULL), or a
concrete handle. -/
inductive StdioArg where
  | unset
  | sentinel (i : Int)
  | handle (h : Handle)
deriving DecidableEq

/-- The value of subprocess.PIPE. -/
def PIPE : Int := -1

/-- The value of subprocess.STDOUT. -/
def STDOUT : Int := -2

/-- The value of subprocess.DEVNULL. -/
def DEVNULL : Int := -3

/-- Pre-launch failures of the engine.  invalidSinkType is the TypeError
raised by the current coerce function on a text/binary mismatch;
emptyCommand is the IndexError raised by tcmd[0] on a command with no
tokens; pathLikeInShell is the TypeError raised for path-like arguments in
shell mode. -/
inductive PreError where
  | invalidSinkType
  | emptyCommand
  | pathLikeInShell
deriving DecidableEq

/-- The coerce function of src/tee_subprocess/subprocess.py lines 96-123:
an int that is STDOUT or PIPE maps to the mode-appropriate standard output;
any other int (DEVNULL) maps to no sink; None falls back to the supplied
default; a concrete handle must match the text/binary mode or a TypeError
is raised, and otherwise is returned unchanged. -/
def coerceStdioArg (sarg : StdioArg) (dflt : Option Handle) (text : Bool) :
    Except PreError (Option Handle) :=
  match sarg with
  | .sentinel i =>
      if i = STDOUT ∨ i = PIPE then
        Except.ok (some (if text then sysStdout else sysStdoutBuffer))
      else
        Except.ok none
  | .unset => Except.ok dflt
  | .handle h =>
      if text = true ∧ h.isText = false then Except.error PreError.invalidSinkType
      else if text = false ∧ h.isText = true then Except.error PreError.invalidSinkType
      else Except.ok (some h)

/-- The coerce function of src/tee_subprocess/__init__.py lines 66-82, which
is verbatim identical in src/subprocess_tee/__init__.py: the same sentinel
mapping, but a non-int argument (a handle, or an explicit None) is returned
unchanged with no text/binary kind check and no failure path. -/
def initCoerceStdioArg (sarg : StdioArg) (text : Bool) : Option Handle :=
  match sarg with
  | .sentinel i =>
      if i = STDOUT ∨ i = PIPE then
        some (if text then sysStdout else sysStdoutBuffer)
      else
        none
  | .unset => none
  | .handle h => some h

/-- One command token: a str, a bytes, or an os.PathLike argument.  The
carried list is the token's character content; os.fsdecode normalization of
bytes and path tokens is represented by reading off that content. -/
inductive Tok where
  | str (s : List Nat)
  | bytes (b : List Nat)
  | path (p : List Nat)
deriving DecidableEq

/-- Whether the token is an os.PathLike argument. -/
def Tok.isPath : Tok → Bool
  | .path _ => true
  | _ => false

/-- The character content of a token, as os.fsdecode would produce it. -/
def Tok.payload : Tok → List Nat
  | .str s => s
  | .bytes b => b
  | .path p => p

/-- A caller-supplied command: a single scalar argument (bare str, bytes or
path-like), or a list/tuple of tokens. -/
inductive CommandM where
  | single (t : Tok)
  | seq (ts : List Tok)
deriving DecidableEq

/-- The character class accepted unquoted by the CPython shlex.quote
facility: ASCII letters, digits, and the characters underscore, at, percent,
plus, equals, colon, comma, dot, slash, hyphen. -/
def isSafeChar (c : Nat) : Bool :=
  (97 ≤ c && c ≤ 122) || (65 ≤ c && c ≤ 90) || (48 ≤ c && c ≤ 57) ||
  c == 95 || c == 64 || c == 37 || c == 43 || c == 61 || c == 58 ||
  c == 44 || c == 46 || c == 47 || c == 45

/-- Per-character replacement inside a single-quoted region: a single quote
(39) becomes quote, double quote, quote, double quote, quote; every other
character stays itself. -/
def quoteRepl (c : Nat) : List Nat :=
  if c = 39 then [39, 34, 39, 34, 39] else [c]

/-- Model of shlex.quote, the external shell-safe quoting facility used at
src/tee_subprocess/subprocess.py line 196: the empty token becomes two
single quotes; a token of only safe characters is returned as is; any other
token is wrapped in single quotes with embedded single quotes escaped. -/
def shlexQuote (s : List Nat) : List Nat :=
  if s = [] then [39, 39]
  else if s.all isSafeChar then s
  else 39 :: ((s.map quoteRepl).flatten ++ [39])

/-- Model of shlex.join: the space-separated concatenation of the quoted
tokens. -/
def shlexJoin : List (List Nat) → List Nat
  | [] => []
  | [t] => shlexQuote t
  | t :: rest => shlexQuote t ++ 32 :: shlexJoin rest

/-- The plain space join used by the shell branch of
src/subprocess_tee/__init__.py line 123, with no quoting at all. -/
def plainJoin (ts : List (List Nat)) : List Nat := List.intercalate [32] ts

/-- Quoting state of the shell field splitter: outside quotes, inside a
single-quoted region, or inside a double-quoted region. -/
inductive QMode where
  | normal
  | insingle
  | indouble
deriving DecidableEq

/-- State of the shell field splitter: the quoting mode, the characters of
the field being accumulated, whether a field has been started, and the
completed fields. -/
structure SplitState where
  mode : QMode
  cur : List Nat
  started : Bool
  acc : List (List Nat)
deriving DecidableEq

/-- One step of a POSIX-style shell field splitter: unquoted whitespace
(space, tab, newline) ends the current field; an unquoted single or double
quote opens the matching quoted region in which every character up to the
closing quote is literal; every other character extends the current field. -/
def splitStep (st : SplitState) (c : Nat) : SplitState :=
  match st.mode with
  | .insingle =>
      if c = 39 then { st with mode := QMode.normal }
      else { st with cur := st.cur ++ [c] }
  | .indouble =>
      if c = 34 then { st with mode := QMode.normal }
      else { st with cur := st.cur ++ [c] }
  | .normal =>
      if c = 32 ∨ c = 9 ∨ c = 10 then
        if st.started then ⟨QMode.normal, [], false, st.acc ++ [st.cur]⟩ else st
      else if c = 39 then { st with mode := QMode.insingle, started := true }
      else if c = 34 then { st with mode := QMode.indouble, started := true }
      else { st with cur := st.cur ++ [c], started := true }

/-- Run the field splitter over a character sequence from a given state. -/
def runSplit (s : List Nat) (st : SplitState) : SplitState :=
  s.foldl splitStep st

/-- Close the splitter: a started final field is emitted. -/
def finishSplit (st : SplitState) : List (List Nat) :=
  if st.started then st.acc ++ [st.cur] else st.acc

/-- How a shell tokenizes a command string into fields.  This is the
observer used to state that a joined command's tokenization is or is not
altered; it also stands in for the external shlex.split tokenizer where one
is needed concretely. -/
def shellFields (s : List Nat) : List (List Nat) :=
  finishSplit (runSplit s ⟨QMode.normal, [], false, []⟩)

/-- Command preparation of the non-shell branch,
src/tee_subprocess/subprocess.py lines 154-172: a bare str or bytes command
is fsdecoded and split by the external tokenizer (passed in as split); a
path-like scalar becomes a one-token command; a list/tuple is used as is.
The first token is the program and the rest are its arguments; on a command
with no tokens the subscript tcmd[0] fails (an IndexError), before any
process is created. -/
def prepareExec (split : List Nat → List (List Nat)) (cmd : CommandM) :
    Except PreError (Tok × List Tok) :=
  let tcmd : List Tok :=
    match cmd with
    | .single (.str s) => (split s).map Tok.str
    | .single (.bytes b) => (split b).map Tok.str
    | .single (.path p) => [Tok.path p]
    | .seq ts => ts
  match tcmd with
  | [] => Except.error PreError.emptyCommand
  | prog :: rest => Except.ok (prog, rest)

/-- Command preparation of the shell branch,
src/tee_subprocess/subprocess.py lines 181-198: a path-like scalar, or a
list/tuple containing any path-like token, raises a TypeError; a list/tuple
is fsdecoded per token and joined with shlex.join; a bare str or bytes is
passed through unchanged. -/
def prepareShell (cmd : CommandM) : Except PreError (List Nat) :=
  match cmd with
  | .single (.path _) => Except.error PreError.pathLikeInShell
  | .seq ts =>
      if ts.any Tok.isPath then Except.error PreError.pathLikeInShell
      else Except.ok (shlexJoin (ts.map Tok.payload))
  | .single (.str s) => Except.ok s
  | .single (.bytes b) => Except.ok b

/-- The shell-branch command string built by src/subprocess_tee/__init__.py
lines 119-125: a non-str command is joined with a plain space and a str is
passed through unchanged; there is no quoting and no path-like check. -/
def prepareShellSubprocessTee (cmd : CommandM) : List Nat :=
  match cmd with
  | .single t => t.payload
  | .seq ts => plainJoin (ts.map Tok.payload)

/-- The form handed to the process launch facility once preparation
succeeded: a program with arguments for exec, or a single command string for
the shell. -/
inductive LaunchForm where
  | execForm (prog : Tok) (args : List Tok)
  | shellForm (s : List Nat)
deriving DecidableEq

/-- Everything the target function of src/tee_subprocess/subprocess.py
computes before any process exists: the two resolved sinks and the launch
form. -/
structure PreLaunch where
  outSink : Option Handle
  errSink : Option Handle
  form : LaunchForm
deriving DecidableEq

/-- The pre-launch phase of the target function,
src/tee_subprocess/subprocess.py lines 142-206, in source order: when tee is
set, the stdout and stderr arguments are coerced against the
mode-appropriate standard stream defaults (lines 144-151), and only then is
the command converted to its launch form (lines 154-206).  An error at any
stage means the launch form is never produced, so no process is started. -/
def targetPre (split : List Nat → List (List Nat)) (tee text shell : Bool)
    (stdoutA stderrA : StdioArg) (cmd : CommandM) :
    Except PreError PreLaunch := do
  let sinks ←
    if tee then do
      let o ← coerceStdioArg stdoutA (some (if text then sysStdout else sysStdoutBuffer)) text
      let e ← coerceStdioArg stderrA (some (if text then sysStderr else sysStderrBuffer)) text
      pure (o, e)
    else
      pure ((none : Option Handle), (none : Option Handle))
  let form ←
    if shell then (prepareShell cmd).map LaunchForm.shellForm
    else (prepareExec split cmd).map fun pa => LaunchForm.execForm pa.1 pa.2
  pure ⟨sinks.1, sinks.2, form⟩

/-- One iteration of the reader loop of src/tee_subprocess/subprocess.py
lines 63-75 on the line chunk just read: if capturing, append the raw chunk
to the capture buffer; if a sink is present, write the chunk to it, decoded
first when the sink is a text handle.  The state is the pair of the capture
buffer and the sequence of chunks written to the sink so far. -/
def teeStep (dec : List Nat → List Nat) (cap : Bool) (sink : Option Handle)
    (st : List (List Nat) × List (List Nat)) (lineb : List Nat) :
    List (List Nat) × List (List Nat) :=
  let st1 := if cap then (st.1 ++ [lineb], st.2) else st
  match sink with
  | none => st1
  | some h =>
      if h.isText then (st1.1, st1.2 ++ [dec lineb])
      else (st1.1, st1.2 ++ [lineb])

/-- The observable outcome of one tee reader: the capture buffer it
accumulated, the chunks it wrote to its sink in order, and its return
value. -/
structure TeeOutcome where
  buffer : List (List Nat)
  writes : List (List Nat)
  result : Option (List Nat)
deriving DecidableEq

/-- The tee reader of src/tee_subprocess/subprocess.py lines 52-80 (the
variants in src/tee_subprocess/__init__.py and src/subprocess_tee/__init__.py
differ only in receiving the text flag instead of testing the sink's class):
fold the loop body over the chunks the stream yields until end-of-stream,
then return the concatenation of the capture buffer when capturing and
nothing otherwise. -/
def teeStream (dec : List Nat → List Nat) (lines : List (List Nat)) (cap : Bool)
    (sink : Option Handle) : TeeOutcome :=
  let st := lines.foldl (teeStep dec cap sink) ([], [])
  ⟨st.1, st.2, if cap then some st.1.flatten else none⟩

/-- The chunks a sink receives from a tee reader that saw the given line
chunks: nothing without a sink, the decoded chunks for a text sink, the raw
chunks for a binary sink. -/
def sinkWrites (dec : List Nat → List Nat) (sink : Option Handle) :
    List (List Nat) → List (List Nat)
  | [] => []
  | l :: rest =>
      (match sink with
       | none => []
       | some h => if h.isText then [dec l] else [l]) ++ sinkWrites dec sink rest

/-- A captured field of a completed run: raw bytes in binary mode or decoded
text in text mode. -/
inductive Payload where
  | bin (b : List Nat)
  | txt (t : List Nat)
deriving DecidableEq

/-- The subprocess.CompletedProcess record built by the target function:
the command, the exit code, and the two optionally captured fields. -/
structure CompletedR where
  args : CommandM
  returncode : Int
  stdout : Option Payload
  stderr : Option Payload
deriving DecidableEq

/-- The subprocess.CalledProcessError payload raised under check: the exit
code, the command, and the two optionally captured fields. -/
structure ProcessFailedR where
  returncode : Int
  cmd : CommandM
  output : Option Payload
  stderr : Option Payload
deriving DecidableEq

/-- Model of the Python expression out.decode() if out else None, applied to
an optional capture buffer: an absent buffer stays absent, an empty buffer
is falsy and also becomes absent, and a nonempty buffer is decoded. -/
def optDecode (dec : List Nat → List Nat) : Option (List Nat) → Option (List Nat)
  | none => none
  | some b => if b = [] then none else some (dec b)

/-- Result assembly of src/tee_subprocess/subprocess.py lines 217-236
(identical at src/tee_subprocess/__init__.py lines 165-189): in text mode
the captures pass through the decode-or-None expression; with check set and
a nonzero exit code a CalledProcessError carrying the command, exit code and
captured payloads is raised, and otherwise a CompletedProcess with the same
fields is returned. -/
def assemble (dec : List Nat → List Nat) (cmd : CommandM) (text check : Bool)
    (retcode : Int) (out err : Option (List Nat)) :
    Except ProcessFailedR CompletedR :=
  if text then
    let output : Option (List Nat) := optDecode dec out
    let error : Option (List Nat) := optDecode dec err
    if check = true ∧ retcode ≠ 0 then
      Except.error ⟨retcode, cmd, output.map Payload.txt, error.map Payload.txt⟩
    else
      Except.ok ⟨cmd, retcode, (optDecode dec out).map Payload.txt,
        (optDecode dec err).map Payload.txt⟩
  else
    if check = true ∧ retcode ≠ 0 then
      Except.error ⟨retcode, cmd, out.map Payload.bin, err.map Payload.bin⟩
    else
      Except.ok ⟨cmd, retcode, out.map Payload.bin, err.map Payload.bin⟩

/-- Result assembly of src/subprocess_tee/__init__.py lines 144-157: the
same field construction, but with no check parameter and no raising path at
all; a CompletedProcess is returned for every exit code. -/
def assembleSubprocessTee (dec : List Nat → List Nat) (cmd : CommandM)
    (text : Bool) (retcode : Int) (out err : Option (List Nat)) : CompletedR :=
  if text then
    ⟨cmd, retcode, (optDecode dec out).map Payload.txt, (optDecode dec err).map Payload.txt⟩
  else
    ⟨cmd, retcode, out.map Payload.bin, err.map Payload.bin⟩

/-- The captured field the assembly of src/tee_subprocess/subprocess.py puts
into both the raised error and the returned result: the decode-or-None of
the capture in text mode and the raw capture in binary mode. -/
def capturedField (dec : List Nat → List Nat) (text : Bool)
    (o : Option (List Nat)) : Option Payload :=
  if text then (optDecode dec o).map Payload.txt else o.map Payload.bin

/-- Follows the spec's words (section 8 and claim C4): the captured field an
equivalent non-tee capturing execution returns for a stream whose full
content is the given byte sequence — always present, the raw bytes in
binary mode and the decoded text in text mode, empty rather than absent
when the stream produced nothing. -/
def specBaselineField (dec : List Nat → List Nat) (text : Bool)
    (content : List Nat) : Payload :=
  if text then Payload.txt (dec content) else Payload.bin content

/-- What the public run entry point hands back: a value computed to
completion on a private transient scheduler (asyncio.run), a not-yet-started
unit of work for the caller to drive, a value computed by blocking on an
auxiliary worker thread, or a value obtained by delegating to the
synchronous stdlib runner. -/
inductive Dispatch (α : Type) where
  | direct (v : α)
  | deferredWork (w : Unit → α)
  | workerBlocked (v : α)
  | stdlibDirect (v : α)

/-- Whether the dispatch outcome is a not-yet-started unit of work. -/
def Dispatch.isDeferred {α : Type} : Dispatch α → Bool
  | .deferredWork _ => true
  | _ => false

/-- Obtain the completed result from a dispatch outcome, driving the
deferred work when there is some. -/
def Dispatch.drive {α : Type} : Dispatch α → α
  | .direct v => v
  | .deferredWork w => w ()
  | .workerBlocked v => v
  | .stdlibDirect v => v

/-- The dispatch decision of run in src/tee_subprocess/subprocess.py lines
311-320 and src/tee_subprocess/__init__.py lines 205-212: when a scheduler
is active in the calling context the coroutine is returned unstarted for the
caller to drive, and otherwise it is run to completion on a private
transient scheduler via asyncio.run. -/
def runDispatchTee {α : Type} (schedulerActive : Bool) (prog : Unit → α) :
    Dispatch α :=
  if schedulerActive then Dispatch.deferredWork prog
  else Dispatch.direct (prog ())

/-- The dispatch decision of run in src/subprocess_tee/__init__.py lines
172-184: with tee disabled the call is delegated to the stdlib subprocess
runner; otherwise, when a scheduler is active the caller is blocked while
the work runs under asyncio.run on a one-worker thread pool, and with no
scheduler it runs directly via asyncio.run. -/
def runDispatchSubprocessTee {α : Type} (tee schedulerActive : Bool)
    (prog : Unit → α) (stdlibRes : Unit → α) : Dispatch α :=
  if tee = false then Dispatch.stdlibDirect (stdlibRes ())
  else if schedulerActive then Dispatch.workerBlocked (prog ())
  else Dispatch.direct (prog ())

/-- A concrete command used by closed witness and counterexample
statements: the token list holding the single word echo. -/
def cmdEx : CommandM := CommandM.seq [Tok.str [101, 99, 104, 111]]

/-!
Helper lemmas about the embedded definitions, shared by the claim theorems
below.
-/

/-- Helper: a tee reader without a sink writes nothing. -/
theorem sinkWrites_none (dec : List Nat → List Nat) (lines : List (List Nat)) :
    sinkWrites dec none lines = [] := by
  induction lines <;> simp [sinkWrites, *]

/-- Helper: a sink receives the decoded chunks when it is a text handle and
the raw chunks when it is a binary handle. -/
theorem sinkWrites_some (dec : List Nat → List Nat) (h : Handle)
    (lines : List (List Nat)) :
    sinkWrites dec (some h) lines = if h.isText then lines.map dec else lines := by
  induction lines with
  | nil => cases hh : h.isText <;> simp [sinkWrites]
  | cons l rest ih => cases hh : h.isText <;> simp [sinkWrites, hh] <;>
      simpa [hh] using ih

/-- Helper: the reader loop is a fold whose capture component collects the
chunks exactly when capturing and whose sink component receives the
per-sink images of the chunks, both in order. -/
theorem teeStream_foldl (dec : List Nat → List Nat) (cap : Bool)
    (sink : Option Handle) (lines : List (List Nat))
    (st : List (List Nat) × List (List Nat)) :
    lines.foldl (teeStep dec cap sink) st =
      (st.1 ++ (if cap then lines else []), st.2 ++ sinkWrites dec sink lines) := by
  induction lines generalizing st with
  | nil =>
      cases sink with
      | none => cases cap <;> simp [sinkWrites]
      | some h => cases cap <;> simp [sinkWrites]
  | cons l rest ih =>
      rw [List.foldl_cons, ih]
      cases sink with
      | none => cases cap <;> simp [teeStep, sinkWrites]
      | some h =>
          cases hh : h.isText <;> cases cap <;>
            simp [teeStep, sinkWrites, hh]

/-- Helper: the capture buffer holds the chunks exactly when capturing. -/
theorem teeStream_buffer (dec : List Nat → List Nat) (lines : List (List Nat))
    (cap : Bool) (sink : Option Handle) :
    (teeStream dec lines cap sink).buffer = if cap then lines else [] := by
  simp [teeStream, teeStream_foldl]

/-- Helper: the chunks written to the sink are its per-sink images of the
stream chunks. -/
theorem teeStream_writes (dec : List Nat → List Nat) (lines : List (List Nat))
    (cap : Bool) (sink : Option Handle) :
    (teeStream dec lines cap sink).writes = sinkWrites dec sink lines := by
  simp [teeStream, teeStream_foldl]

/-- Helper: the reader returns the concatenated capture when capturing and
nothing otherwise. -/
theorem teeStream_result (dec : List Nat → List Nat) (lines : List (List Nat))
    (cap : Bool) (sink : Option Handle) :
    (teeStream dec lines cap sink).result =
      if cap then some lines.flatten else none := by
  cases cap <;> simp [teeStream, teeStream_foldl]

/-- Helper: running the splitter over a concatenation is running it over the
pieces in sequence. -/
theorem runSplit_append (a b : List Nat) (st : SplitState) :
    runSplit (a ++ b) st = runSplit b (runSplit a st) := by
  simp [runSplit, List.foldl_append]

/-- Helper: one-step unfolding of the splitter run. -/
theorem runSplit_cons (c : Nat) (xs : List Nat) (st : SplitState) :
    runSplit (c :: xs) st = runSplit xs (splitStep st c) := rfl

/-- Helper: a safe character is neither field-splitting whitespace nor a
quote character. -/
theorem isSafeChar_facts (c : Nat) (h : isSafeChar c = true) :
    ¬(c = 32 ∨ c = 9 ∨ c = 10) ∧ c ≠ 39 ∧ c ≠ 34 := by
  simp only [isSafeChar, Bool.or_eq_true, Bool.and_eq_true, decide_eq_true_eq,
    beq_iff_eq] at h
  refine ⟨?_, ?_, ?_⟩ <;> omega

/-- Helper: safe characters processed in normal mode with a started field
are appended to the current field one by one. -/
theorem runSplit_safe (t : List Nat) (ht : t.all isSafeChar = true)
    (cur : List Nat) (acc : List (List Nat)) :
    runSplit t ⟨QMode.normal, cur, true, acc⟩ = ⟨QMode.normal, cur ++ t, true, acc⟩ := by
  induction t generalizing cur with
  | nil => simp [runSplit]
  | cons c rest ih =>
      rw [List.all_cons, Bool.and_eq_true] at ht
      obtain ⟨f1, f2, f3⟩ := isSafeChar_facts c ht.1
      have hstep : splitStep ⟨QMode.normal, cur, true, acc⟩ c =
          ⟨QMode.normal, cur ++ [c], true, acc⟩ := by
        simp only [splitStep]
        rw [if_neg f1, if_neg f2, if_neg f3]
      rw [runSplit_cons, hstep, ih ht.2]
      simp

/-- Helper: the single-quote-escaped image of a token, processed inside a
single-quoted region, is consumed back into the current field literally. -/
theorem runSplit_repl (t : List Nat) (cur : List Nat) (acc : List (List Nat)) :
    runSplit ((t.map quoteRepl).flatten) ⟨QMode.insingle, cur, true, acc⟩ =
      ⟨QMode.insingle, cur ++ t, true, acc⟩ := by
  induction t generalizing cur with
  | nil => simp [runSplit]
  | cons c rest ih =>
      rw [List.map_cons, List.flatten_cons, runSplit_append]
      by_cases hc : c = 39
      · subst hc
        have hq : runSplit (quoteRepl 39) ⟨QMode.insingle, cur, true, acc⟩ =
            ⟨QMode.insingle, cur ++ [39], true, acc⟩ := by
          simp [quoteRepl, runSplit, splitStep]
        rw [hq, ih]
        simp
      · have hq : runSplit (quoteRepl c) ⟨QMode.insingle, cur, true, acc⟩ =
            ⟨QMode.insingle, cur ++ [c], true, acc⟩ := by
          simp [quoteRepl, hc, runSplit, splitStep]
        rw [hq, ih]
        simp

/-- Helper: consuming one quoted token from normal mode appends exactly that
token to the current field and leaves the splitter in normal mode with a
started field. -/
theorem runSplit_quote (t : List Nat) (cur : List Nat) (started : Bool)
    (acc : List (List Nat)) :
    runSplit (shlexQuote t) ⟨QMode.normal, cur, started, acc⟩ =
      ⟨QMode.normal, cur ++ t, true, acc⟩ := by
  by_cases h0 : t = []
  · subst h0
    simp [shlexQuote, runSplit, splitStep]
  · by_cases hsafe : t.all isSafeChar
    · rw [shlexQuote, if_neg h0, if_pos hsafe]
      obtain ⟨c, rest, rfl⟩ := List.exists_cons_of_ne_nil h0
      rw [List.all_cons, Bool.and_eq_true] at hsafe
      obtain ⟨f1, f2, f3⟩ := isSafeChar_facts c hsafe.1
      have hstep : splitStep ⟨QMode.normal, cur, started, acc⟩ c =
          ⟨QMode.normal, cur ++ [c], true, acc⟩ := by
        simp only [splitStep]
        rw [if_neg f1, if_neg f2, if_neg f3]
      rw [runSplit_cons, hstep, runSplit_safe rest hsafe.2]
      simp
    · rw [shlexQuote, if_neg h0, if_neg hsafe]
      have hopen : splitStep ⟨QMode.normal, cur, started, acc⟩ 39 =
          ⟨QMode.insingle, cur, true, acc⟩ := by
        simp [splitStep]
      rw [runSplit_cons, hopen, runSplit_append, runSplit_repl]
      simp [runSplit, splitStep]

/-- Helper: splitting the shlex join of a token list from a clean
normal-mode state recovers exactly the tokens, appended to the fields
already accumulated. -/
theorem shellFields_join_aux (ts : List (List Nat)) (hne : ts ≠ [])
    (acc : List (List Nat)) :
    finishSplit (runSplit (shlexJoin ts) ⟨QMode.normal, [], false, acc⟩) =
      acc ++ ts := by
  induction ts generalizing acc with
  | nil => cases hne rfl
  | cons t rest ih =>
      cases rest with
      | nil =>
          simp only [shlexJoin]
          rw [runSplit_quote]
          simp [finishSplit]
      | cons u us =>
          simp only [shlexJoin]
          rw [runSplit_append, runSplit_quote, runSplit_cons]
          have hflush : splitStep ⟨QMode.normal, [] ++ t, true, acc⟩ 32 =
              ⟨QMode.normal, [], false, acc ++ [[] ++ t]⟩ := by
            simp [splitStep]
          rw [hflush, ih (by simp)]
          simp

/-- Helper: the external-quoting round trip — field-splitting the shlex
join of any token list recovers exactly the original tokens, so the quoting
cannot alter tokenization. -/
theorem shellFields_shlexJoin (ts : List (List Nat)) :
    shellFields (shlexJoin ts) = ts := by
  cases ts with
  | nil => rfl
  | cons t rest =>
      simpa [shellFields] using shellFields_join_aux (t :: rest) (by simp) []

/-!
Claim theorems.
-/

/-- Claim C1: for every stream content and every binary-mode sink, when both
capture and a sink are requested, the sequence of byte chunks the tee reader
writes to the sink is identical, chunk for chunk, to the byte chunks
appended to the capture buffer, whose concatenation it returns. -/
theorem c1_binary_sink_writes_match_capture (dec : List Nat → List Nat)
    (lines : List (List Nat)) (fd : Nat) :
    (teeStream dec lines true (some ⟨false, fd⟩)).writes =
      (teeStream dec lines true (some ⟨false, fd⟩)).buffer ∧
    (teeStream dec lines true (some ⟨false, fd⟩)).result =
      some (teeStream dec lines true (some ⟨false, fd⟩)).writes.flatten := by
  have hb := teeStream_buffer dec lines true (some ⟨false, fd⟩)
  have hw := teeStream_writes dec lines true (some ⟨false, fd⟩)
  have hr := teeStream_result dec lines true (some ⟨false, fd⟩)
  rw [sinkWrites_some] at hw
  simp only [if_pos trivial] at hb hr
  simp at hw
  exact ⟨by rw [hw, hb], by rw [hr, hw]⟩

/-- Claim C2: the tee reader with capture requested returns exactly the
concatenation of all lines read, with the buffered chunks equal to the lines
in content, boundaries and order; with capture not requested it returns
nothing. -/
theorem c2_capture_returns_exact_concatenation (dec : List Nat → List Nat)
    (lines : List (List Nat)) (sink : Option Handle) :
    (teeStream dec lines true sink).buffer = lines ∧
    (teeStream dec lines true sink).result = some lines.flatten ∧
    (teeStream dec lines false sink).result = none := by
  refine ⟨?_, ?_, ?_⟩ <;>
    simp [teeStream_buffer, teeStream_result]

/-- Claim C9: the discard sentinel resolves to no destination, so the tee
reader forwards nothing for that stream, while capture, when requested,
still returns the full stream content. -/
theorem c9_discard_sentinel_no_forwarding (dec : List Nat → List Nat)
    (lines : List (List Nat)) (d : Option Handle) (t : Bool) :
    coerceStdioArg (StdioArg.sentinel DEVNULL) d t = Except.ok none ∧
    (teeStream dec lines true none).writes = [] ∧
    (teeStream dec lines true none).result = some lines.flatten := by
  refine ⟨?_, ?_, ?_⟩
  · simp [coerceStdioArg, DEVNULL, STDOUT, PIPE]
  · simp [teeStream_writes, sinkWrites_none]
  · simp [teeStream_result]

/-- Claim C10: a stderr argument given as the STDOUT or PIPE sentinel
ignores the stream's own caller-supplied default and resolves to the
mode-appropriate standard-output destination, so the child's stderr is
forwarded to stdout's destination; through the target function's pre-launch
phase the resolved stderr sink is the stdout handle, not the stderr
default. -/
theorem c10_stderr_merge_sentinel_resolves_to_stdout
    (split : List Nat → List (List Nat)) (d : Option Handle) (t : Bool) :
    coerceStdioArg (StdioArg.sentinel STDOUT) d t =
      Except.ok (some (if t then sysStdout else sysStdoutBuffer)) ∧
    coerceStdioArg (StdioArg.sentinel PIPE) d t =
      Except.ok (some (if t then sysStdout else sysStdoutBuffer)) ∧
    targetPre split true t false StdioArg.unset (StdioArg.sentinel STDOUT)
        (CommandM.seq [Tok.str [97]]) =
      Except.ok ⟨some (if t then sysStdout else sysStdoutBuffer),
        some (if t then sysStdout else sysStdoutBuffer),
        LaunchForm.execForm (Tok.str [97]) []⟩ := by
  cases t <;> exact ⟨rfl, rfl, rfl⟩

/-- Claim C6 counterexample: the resolver of src/tee_subprocess/__init__.py
(and src/subprocess_tee/__init__.py) performs no text/binary kind check — a
text handle supplied in binary mode is returned unchanged instead of
failing, so resolution succeeds and the run proceeds to launch. -/
theorem c6_counterexample_legacy_resolver_no_check :
    initCoerceStdioArg (StdioArg.handle ⟨true, 7⟩) false = some ⟨true, 7⟩ := rfl

/-- Claim C6 (amended): in the current module's resolver a caller-supplied
concrete handle fails with the invalid-sink-type error exactly when its
text/binary kind mismatches the declared mode, pre-launch — the target
function's pre-launch phase propagates the failure before a launch form
exists — and a matching handle is returned unchanged; the package
entry-point resolver instead performs no kind check and returns any handle
unchanged. -/
theorem c6_amended_sink_kind_check (h : Handle) (d : Option Handle) (t : Bool)
    (split : List Nat → List (List Nat)) :
    (coerceStdioArg (StdioArg.handle h) d t =
      if h.isText = t then Except.ok (some h)
      else Except.error PreError.invalidSinkType) ∧
    initCoerceStdioArg (StdioArg.handle h) t = some h ∧
    targetPre split true t false (StdioArg.handle h) StdioArg.unset
        (CommandM.seq [Tok.str [97]]) =
      (if h.isText = t then
        Except.ok ⟨some h, some (if t then sysStderr else sysStderrBuffer),
          LaunchForm.execForm (Tok.str [97]) []⟩
       else Except.error PreError.invalidSinkType) := by
  obtain ⟨ht, fd⟩ := h
  cases ht <;> cases t <;> exact ⟨rfl, rfl, rfl⟩

/-- Claim C7: a command with no tokens in non-shell mode, and a command
containing a path-like token in shell mode, fail during command preparation
— the empty command at the program subscript, the path-like command at the
explicit shell-mode check — so the launch form is never produced and no
process is started. -/
theorem c7_empty_or_pathlike_fails_pre_launch
    (split : List Nat → List (List Nat)) (s : List Nat) (hs : split s = [])
    (ts : List Tok) (hts : ts.any Tok.isPath = true) (p : List Nat) :
    prepareExec split (CommandM.single (Tok.str s)) =
      Except.error PreError.emptyCommand ∧
    prepareExec split (CommandM.seq []) = Except.error PreError.emptyCommand ∧
    prepareShell (CommandM.seq ts) = Except.error PreError.pathLikeInShell ∧
    prepareShell (CommandM.single (Tok.path p)) =
      Except.error PreError.pathLikeInShell ∧
    targetPre split false false false StdioArg.unset StdioArg.unset
      (CommandM.seq []) = Except.error PreError.emptyCommand ∧
    targetPre split false false true StdioArg.unset StdioArg.unset
      (CommandM.seq ts) = Except.error PreError.pathLikeInShell := by
  have h3 : prepareShell (CommandM.seq ts) = Except.error PreError.pathLikeInShell := by
    simp [prepareShell, hts]
  refine ⟨?_, rfl, h3, rfl, rfl, ?_⟩
  · simp [prepareExec, hs]
  · simp [targetPre, h3, Except.map]

/-- Claim C7 witness: concrete empty and path-like commands at which the
pre-launch failures happen. -/
theorem c7_pre_launch_witness :
    shellFields [] = [] ∧
    [Tok.path []].any Tok.isPath = true ∧
    prepareExec shellFields (CommandM.single (Tok.str [])) =
      Except.error PreError.emptyCommand ∧
    prepareShell (CommandM.seq [Tok.path []]) =
      Except.error PreError.pathLikeInShell := by
  have h := c7_empty_or_pathlike_fails_pre_launch shellFields [] rfl
    [Tok.path []] rfl []
  exact ⟨rfl, rfl, h.1, h.2.2.1⟩

/-- Claim C5 counterexample: with a scheduler active, the run entry point of
src/subprocess_tee/__init__.py blocks the caller and computes the value on
an auxiliary one-worker thread pool — it does not hand back a deferred unit
of work, so the deferred policy does not hold system-wide. -/
theorem c5_counterexample_worker_offload :
    runDispatchSubprocessTee true true (fun _ => (0 : Nat)) (fun _ => 1) =
      Dispatch.workerBlocked 0 ∧
    (runDispatchSubprocessTee true true (fun _ => (0 : Nat))
      (fun _ => 1)).isDeferred = false := ⟨rfl, rfl⟩

/-- Claim C5 (amended): the run of the tee_subprocess modules hands back a
deferred, not-yet-started unit of work exactly when a scheduler is active
and otherwise completes directly on a private transient scheduler, and
driving either outcome yields the program's result; the run of the legacy
subprocess_tee module never defers — with a scheduler active it blocks the
caller and offloads the work to an auxiliary worker — so that policy is not
system-wide. -/
theorem c5_amended_dispatch_policy {α : Type} (active : Bool)
    (prog stdlibRes : Unit → α) :
    (runDispatchTee active prog).isDeferred = active ∧
    (runDispatchTee active prog).drive = prog () ∧
    runDispatchTee true prog = Dispatch.deferredWork prog ∧
    runDispatchTee false prog = Dispatch.direct (prog ()) ∧
    (runDispatchSubprocessTee true active prog stdlibRes).isDeferred = false ∧
    runDispatchSubprocessTee true true prog stdlibRes =
      Dispatch.workerBlocked (prog ()) := by
  cases active <;> exact ⟨rfl, rfl, rfl, rfl, rfl, rfl⟩

/-- Claim C3 counterexample: the result assembly of
src/subprocess_tee/__init__.py has no raise-on-failure path at all — at
exit code 1 with captured output it returns a completed record normally, so
a run through that module cannot raise the process-failed error the claim
requires. -/
theorem c3_counterexample_subprocess_tee_no_check :
    assembleSubprocessTee (fun b => b) cmdEx false 1 (some [104, 105]) (some []) =
      ⟨cmdEx, 1, some (Payload.bin [104, 105]), some (Payload.bin [])⟩ := rfl

/-- Claim C3 (amended): in the tee_subprocess assembly, check with a
nonzero exit code raises the process-failed error carrying the command, the
exit code and exactly the captured payloads that the same assembly with
check unset returns in its completed record; with exit code zero or check
unset it returns that record; the legacy subprocess_tee assembly has no
check handling and returns a completed record for every exit code. -/
theorem c3_amended_check_raises_with_same_payload (dec : List Nat → List Nat)
    (cmd : CommandM) (text : Bool) (rc : Int) (out err : Option (List Nat)) :
    (rc ≠ 0 →
      assemble dec cmd text true rc out err =
        Except.error ⟨rc, cmd, capturedField dec text out, capturedField dec text err⟩) ∧
    (rc = 0 →
      assemble dec cmd text true rc out err =
        Except.ok ⟨cmd, rc, capturedField dec text out, capturedField dec text err⟩) ∧
    assemble dec cmd text false rc out err =
      Except.ok ⟨cmd, rc, capturedField dec text out, capturedField dec text err⟩ ∧
    assembleSubprocessTee dec cmd text rc out err =
      ⟨cmd, rc, capturedField dec text out, capturedField dec text err⟩ := by
  refine ⟨fun h => ?_, fun h => ?_, ?_, ?_⟩
  · cases text <;> simp [assemble, capturedField, h]
  · subst h
    cases text <;> simp [assemble, capturedField]
  · cases text <;> simp [assemble, capturedField]
  · cases text <;> simp [assembleSubprocessTee, capturedField]

/-- Claim C3 witness: a concrete nonzero exit under check yields the error
carrying the check-less payloads. -/
theorem c3_check_witness :
    (1 : Int) ≠ 0 ∧
    assemble (fun b => b) cmdEx false true 1 (some [104]) none =
      Except.error ⟨1, cmdEx, capturedField (fun b => b) false (some [104]),
        capturedField (fun b => b) false none⟩ :=
  ⟨by decide, (c3_amended_check_raises_with_same_payload (fun b => b) cmdEx
    false 1 (some [104]) none).1 (by decide)⟩

/-- Claim C4 counterexample: a stream that produced no output captures as
the empty byte sequence, yet the text-mode assembly turns it into an absent
field — the decode-or-None expression drops falsy empty bytes — while the
non-tee baseline yields the present empty text value, even though capture
was requested. -/
theorem c4_counterexample_empty_text_capture_absent :
    (teeStream (fun b => b) [] true none).result = some [] ∧
    assemble (fun b => b) cmdEx true false 0 (some []) (some []) =
      Except.ok ⟨cmdEx, 0, none, none⟩ ∧
    specBaselineField (fun b => b) true [] = Payload.txt [] := ⟨rfl, rfl, rfl⟩

/-- Claim C4 (amended): with capture requested, in binary mode the captured
fields of the completed record equal the non-tee baseline for the same
stream contents, including the present empty value for a silent stream; in
text mode they equal the decoded baseline whenever the stream produced
output, but a stream that produced no output yields an absent field where
the baseline is the present empty text; with capture not requested the
fields are absent. -/
theorem c4_amended_capture_fields_vs_baseline (dec : List Nat → List Nat)
    (cmd : CommandM) (rc : Int) (sink : Option Handle)
    (oL eL : List (List Nat)) :
    assemble dec cmd false false rc (teeStream dec oL true sink).result
        (teeStream dec eL true sink).result =
      Except.ok ⟨cmd, rc, some (specBaselineField dec false oL.flatten),
        some (specBaselineField dec false eL.flatten)⟩ ∧
    assemble dec cmd true false rc (teeStream dec oL true sink).result
        (teeStream dec eL true sink).result =
      Except.ok ⟨cmd, rc,
        (if oL.flatten = [] then none
         else some (specBaselineField dec true oL.flatten)),
        (if eL.flatten = [] then none
         else some (specBaselineField dec true eL.flatten))⟩ ∧
    assemble dec cmd false false rc (teeStream dec oL false sink).result
        (teeStream dec eL false sink).result =
      Except.ok ⟨cmd, rc, none, none⟩ ∧
    assemble dec cmd true false rc (teeStream dec oL false sink).result
        (teeStream dec eL false sink).result =
      Except.ok ⟨cmd, rc, none, none⟩ := by
  refine ⟨?_, ?_, ?_, ?_⟩ <;>
    simp [teeStream_result, assemble, optDecode, specBaselineField, apply_ite]

/-- Claim C8 counterexample: the shell branch of
src/subprocess_tee/__init__.py joins the tokens with plain spaces and no
quoting, so a token with embedded whitespace is retokenized by the shell —
the two tokens pr and a-space-b come back as three fields — whereas the
shlex join of the same tokens splits back to exactly the two tokens. -/
theorem c8_counterexample_plain_space_join :
    prepareShellSubprocessTee
        (CommandM.seq [Tok.str [112, 114], Tok.str [97, 32, 98]]) =
      [112, 114, 32, 97, 32, 98] ∧
    shellFields [112, 114, 32, 97, 32, 98] = [[112, 114], [97], [98]] ∧
    shellFields (shlexJoin [[112, 114], [97, 32, 98]]) =
      [[112, 114], [97, 32, 98]] := ⟨rfl, rfl, rfl⟩

/-- Claim C8 (amended): in the current module's shell mode a token sequence
is joined into one shell-escaped command string whose field-splitting
recovers exactly the original tokens — embedded whitespace and
metacharacters cannot alter tokenization — and a bare string or bytes
command is passed through to the shell unchanged; the legacy subprocess_tee
module instead joins tokens with plain unquoted spaces, which does not
preserve tokenization. -/
theorem c8_amended_shell_join_quoting (ts : List (List Nat)) (s b : List Nat) :
    shellFields (shlexJoin ts) = ts ∧
    prepareShell (CommandM.seq (ts.map Tok.str)) = Except.ok (shlexJoin ts) ∧
    prepareShell (CommandM.single (Tok.str s)) = Except.ok s ∧
    prepareShell (CommandM.single (Tok.bytes b)) = Except.ok b := by
  have h2 : (ts.map Tok.str).map Tok.payload = ts := by
    induction ts with
    | nil => rfl
    | cons a l ih => simp only [List.map_cons, Tok.payload, ih]
  have h1 : (ts.map Tok.str).any Tok.isPath = false := by
    induction ts with
    | nil => rfl
    | cons a l ih => simp [Tok.isPath, ih]
  refine ⟨shellFields_shlexJoin ts, ?_, rfl, rfl⟩
  simp [prepareShell, h1, h2]
